import Mathlib

/-!
Echolon AI Dashboard: verification of the spec's claims against the code.

Shallow embedding of the two scripts `src/app.py` and `src/dashboard.py`.
Tables are modelled as named columns of rational numbers (pandas numeric
columns); the numpy random generator is modelled as an abstract deterministic
generator structure threaded through the demo-data construction, exactly as the
script threads the global numpy state after `np.random.seed(9)`.

Fidelity notes:
* Rational arithmetic replaces floating point.  Division by zero yields `0` in
  `ℚ` where pandas would yield `inf`/`NaN`; no theorem below is decided at such
  a point (concrete counterexamples use non-zero data, and the universally
  quantified theorems do not depend on the numeric value of a quotient).
* `mean` of an empty column is `0` here and `NaN` in pandas; in every guard of
  the embedded code both values make the comparison false, so the branch
  structure agrees.
* The `Date` column of the demo table is modelled as day offsets `0..6`.
-/

namespace Echolon

/-- A pandas dataframe as used by the dashboard: an ordered list of named
numeric columns. -/
structure DataFrame where
  cols : List (String × List ℚ)
deriving DecidableEq

/-- Membership test `name in df.columns`: exact, case-sensitive membership test, as performed
by `dynamic_ai_insights` in `src/dashboard.py`. -/
def DataFrame.hasCol (df : DataFrame) (name : String) : Bool :=
  df.cols.any (fun c => c.1 == name)

/-- Column access `df[name]`: the first column with that exact name (empty if absent; the
embedded code only reads a column under a `hasCol` guard). -/
def DataFrame.col (df : DataFrame) (name : String) : List ℚ :=
  ((df.cols.find? (fun c => c.1 == name)).map (fun c => c.2)).getD []

/-- Pandas `series.sum()`. -/
def qsum (xs : List ℚ) : ℚ := xs.foldr (· + ·) 0

/-- Pandas `series.mean()` (sum over length; `0` for the empty series where pandas
gives `NaN` — every guard below treats both the same way). -/
def qmean (xs : List ℚ) : ℚ := qsum xs / xs.length

/-- Pandas `series.min()` (`0` for the empty series, see `qmean`). -/
def qmin : List ℚ → ℚ
  | [] => 0
  | x :: rest => rest.foldl min x

/-- Pandas `series.pct_change()` dropping the leading `NaN`: the relative change
`x_i / x_(i-1) - 1` for each consecutive pair. -/
def pctChanges (xs : List ℚ) : List ℚ :=
  List.zipWith (fun prev cur => cur / prev - 1) xs xs.tail

/-- Pandas `series.pct_change().mean()` (pandas skips the leading `NaN`, so the mean
is over `length - 1` values). -/
def pctChangeMean (xs : List ℚ) : ℚ := qmean (pctChanges xs)

/-- Format a rational to one decimal place, as Python's `:.1f` does for the
trend percentages interpolated into insight messages. -/
def fmt1 (q : ℚ) : String :=
  let n : ℤ := round (q * 10)
  let sign := if n < 0 then "-" else ""
  sign ++ toString (n.natAbs / 10) ++ "." ++ toString (n.natAbs % 10)

/-- The insights `dynamic_ai_insights` can append, one constructor per
`insights.append(...)` site in `src/dashboard.py`, carrying the numeric value
interpolated into the message where the source interpolates one. -/
inductive Insight where
  | revTrendUp (t : ℚ)
  | revTrendDown (t : ℚ)
  | revOutperform
  | revIndustryHigher
  | revOutlierLow
  | expExcellent
  | expUnder80
  | expExceed
  | expBelowIndustry
  | expAboveIndustry
  | custGrowing (t : ℚ)
  | custDeclining (t : ℚ)
  | custHigh
  | custLow
  | fallback
deriving DecidableEq

/-- The message text of each insight, from the string literals of
`dynamic_ai_insights`. -/
def Insight.message : Insight → String
  | .revTrendUp t => "🚀 Revenue is trending up (+" ++ fmt1 t ++ "%). Keep the momentum!"
  | .revTrendDown t => "📉 Revenue is trending down (" ++ fmt1 t ++ "%). Investigate possible causes."
  | .revOutperform => "✅ Your average revenue outperforms the industry. Great job!"
  | .revIndustryHigher => "⚠️ Industry revenue is higher. Explore changes to pricing, marketing, or products."
  | .revOutlierLow => "🧐 Unusually low revenue detected in some period(s). Review those for anomalies."
  | .expExcellent => "🎯 Excellent expense control: Expenses < 70% of revenue."
  | .expUnder80 => "👍 Expenses under 80% of revenue. Maintain or improve efficiency."
  | .expExceed => "⚠️ Expenses exceed revenue! Immediate cost review recommended."
  | .expBelowIndustry => "💡 Your expenses are below industry average. Well done!"
  | .expAboveIndustry => "🔎 Your expenses are above industry average. Look for cost savings."
  | .custGrowing t => "📈 Growing customer base (+" ++ fmt1 t ++ "%). Continue strong outreach."
  | .custDeclining t => "⚠️ Customer #s declining (" ++ fmt1 t ++ "%). Check retention/lead gen."
  | .custHigh => "🌟 High customer base. Maybe segment for personalized offers."
  | .custLow => "📢 Relatively low customer base—prioritize acquisition tactics."
  | .fallback => "Upload more data for actionable, dynamic insights."

/-- Is the insight produced by the `Customers` branch? -/
def Insight.isCustomer : Insight → Bool
  | .custGrowing _ => true
  | .custDeclining _ => true
  | .custHigh => true
  | .custLow => true
  | _ => false

/-- Is the insight produced by the revenue branch? -/
def Insight.isRevenue : Insight → Bool
  | .revTrendUp _ => true
  | .revTrendDown _ => true
  | .revOutperform => true
  | .revIndustryHigher => true
  | .revOutlierLow => true
  | _ => false

/-- The `----- Revenue Metrics -----` block of `dynamic_ai_insights`
(`src/dashboard.py` lines 130-146). -/
def revenueInsights (df : DataFrame) : List Insight :=
  if df.hasCol "Your Revenue" && df.hasCol "Industry Revenue" then
    let yourRev := df.col "Your Revenue"
    let yourRevMean := qmean yourRev
    let industryRevMean := qmean (df.col "Industry Revenue")
    let revGap := yourRevMean - industryRevMean
    let revenueTrend : Option ℚ :=
      if yourRev.length > 1 then some (pctChangeMean yourRev * 100) else none
    let trendPart : List Insight :=
      match revenueTrend with
      | some t => if t > 5 then [.revTrendUp t] else if t < -5 then [.revTrendDown t] else []
      | none => []
    let gapPart : List Insight :=
      if revGap > 0 then [.revOutperform] else [.revIndustryHigher]
    let outlierPart : List Insight :=
      if qmin yourRev < yourRevMean * (7 / 10) then [.revOutlierLow] else []
    trendPart ++ gapPart ++ outlierPart
  else []

/-- The guarded expense ratio of the insights block (`src/dashboard.py`
line 149): `df['Your Expenses'].sum() / df['Your Revenue'].sum() if
df['Your Revenue'].sum() > 0 else None`. -/
def insights_expense_ratio (df : DataFrame) : Option ℚ :=
  if qsum (df.col "Your Revenue") > 0 then
    some (qsum (df.col "Your Expenses") / qsum (df.col "Your Revenue"))
  else none

/-- The `----- Expenses Metrics -----` block of `dynamic_ai_insights`
(`src/dashboard.py` lines 148-162). -/
def expensesInsights (df : DataFrame) : List Insight :=
  if df.hasCol "Your Expenses" && df.hasCol "Your Revenue" then
    let ratioPart : List Insight :=
      match insights_expense_ratio df with
      | some r =>
          if r < 7 / 10 then [.expExcellent]
          else if r < 8 / 10 then [.expUnder80]
          else if r > 1 then [.expExceed]
          else []
      | none => []
    let industryPart : List Insight :=
      if df.hasCol "Industry Expenses" then
        if qmean (df.col "Your Expenses") < qmean (df.col "Industry Expenses") then
          [.expBelowIndustry]
        else [.expAboveIndustry]
      else []
    ratioPart ++ industryPart
  else []

/-- The `---- Customers ----` block of `dynamic_ai_insights`
(`src/dashboard.py` lines 164-175). -/
def customersInsights (df : DataFrame) : List Insight :=
  if df.hasCol "Customers" then
    let cust := df.col "Customers"
    let custTrend : Option ℚ :=
      if cust.length > 1 then some (pctChangeMean cust * 100) else none
    let avgCust := qmean cust
    let trendPart : List Insight :=
      match custTrend with
      | some t => if t > 5 then [.custGrowing t] else if t < -5 then [.custDeclining t] else []
      | none => []
    let sizePart : List Insight :=
      if avgCust > 4000 then [.custHigh]
      else if avgCust < 1500 then [.custLow]
      else []
    trendPart ++ sizePart
  else []

/-- All insights appended before the `----- General -----` fallback check. -/
def insightsCore (df : DataFrame) : List Insight :=
  revenueInsights df ++ expensesInsights df ++ customersInsights df

/-- `dynamic_ai_insights` (`src/dashboard.py` lines 127-179): the branch
insights, or the single generic fallback when no branch fired. -/
def dynamic_ai_insights (df : DataFrame) : List Insight :=
  let core := insightsCore df
  if core.isEmpty then [.fallback] else core

/-- The expense ratio of the achievements block (`src/dashboard.py` line 211):
same division, same guard, but the sentinel `2` instead of `None` when the
revenue sum is not positive. -/
def achievements_expense_ratio (df : DataFrame) : ℚ :=
  if qsum (df.col "Your Revenue") > 0 then
    qsum (df.col "Your Expenses") / qsum (df.col "Your Revenue")
  else 2

/-- Expression `min(100, int(len(filtered_df)/10*100))` (`src/dashboard.py` line 224):
the gamified completion percentage for a table of `n` rows.  `int(...)`
truncates the non-negative value, i.e. takes the floor. -/
def completion_ratio (n : ℕ) : ℕ :=
  min 100 (Int.toNat ((n : ℚ) / 10 * 100).floor)

/-- Rounding `np.round(x, 0)` as applied to the industry columns. -/
def round0 (q : ℚ) : ℚ := (round q : ℤ)

/-- Round to one decimal, as `.round(1)` on the `% Diff` columns. -/
def round1 (q : ℚ) : ℚ := ((round (q * 10) : ℤ) : ℚ) / 10

/-- Expression `((user - industry)/industry*100).round(1)`: the `% Diff` fields of the
demo table (`src/dashboard.py` lines 61-62). -/
def pct_diff (user industry : ℚ) : ℚ :=
  round1 ((user - industry) / industry * 100)

/-- Expression `user_values * np.random.uniform(...)`: the industry reference columns
are the user's own values multiplied elementwise by random factors
(`src/dashboard.py` lines 50-51). -/
def industry_reference (userValues factors : List ℚ) : List ℚ :=
  List.zipWith (fun u f => u * f) userValues factors

/-- The numpy global random generator, abstracted: deterministic functions
from (parameters, state) to (draws, next state).  `seed` is
`np.random.seed`; an execution that never seeds would instead start from
`fromEntropy` applied to ambient OS entropy. -/
structure NumpyRNG where
  seed : ℕ → ℕ
  fromEntropy : ℕ → ℕ
  randint : ℕ → ℕ → ℕ → ℕ → List ℚ × ℕ
  uniform : ℚ → ℚ → ℕ → ℕ → List ℚ × ℕ

/-- The demo table of `src/dashboard.py` (lines 46-64): `np.random.seed(9)`
followed by five draws threaded through the generator state, then the derived
columns.  The `Date` column is modelled as day offsets of the seven
consecutive dates. -/
def default_df (rng : NumpyRNG) : DataFrame :=
  let s0 := rng.seed 9
  let r1 := rng.randint 90000 130000 7 s0
  let user_revenue := r1.1
  let r2 := rng.randint 50000 90000 7 r1.2
  let user_expenses := r2.1
  let u1 := rng.uniform (85 / 100) (95 / 100) 7 r2.2
  let industry_avg_revenue := industry_reference user_revenue u1.1
  let u2 := rng.uniform (107 / 100) (114 / 100) 7 u1.2
  let industry_avg_expenses := industry_reference user_expenses u2.1
  let r3 := rng.randint 1000 6000 7 u2.2
  let user_customers := r3.1
  ⟨[("Date", [0, 1, 2, 3, 4, 5, 6]),
    ("Your Revenue", user_revenue),
    ("Your Expenses", user_expenses),
    ("Industry Revenue", industry_avg_revenue.map round0),
    ("Industry Expenses", industry_avg_expenses.map round0),
    ("Customers", user_customers),
    ("% Diff Revenue", List.zipWith pct_diff user_revenue industry_avg_revenue),
    ("% Diff Expenses", List.zipWith pct_diff user_expenses industry_avg_expenses),
    ("Revenue Rank", [2, 2, 1, 2, 1, 1, 2])]⟩

/-- One execution of the demo-data section of `src/dashboard.py`: the ambient
OS entropy the process would otherwise draw from is an explicit argument, but
the script calls `np.random.seed(9)` before any draw, so the generator state
never depends on it. -/
def run_demo (rng : NumpyRNG) (entropy : ℕ) : DataFrame :=
  let _unseeded_state := rng.fromEntropy entropy
  default_df rng

/-- Loading via `pd.read_csv` in `src/app.py` line 63: the call is not wrapped in any
handler, so a parse failure propagates to the caller as an uncaught
exception (modelled by `Except.error`).  `parse` stands for the pandas CSV
parser applied to the uploaded bytes. -/
def app_load_data (parse : String → Except String DataFrame)
    (upload : Option String) : Except String (Option DataFrame) :=
  match upload with
  | none => Except.ok none
  | some s => (parse s).map some

/-- The upload block of `src/dashboard.py` (lines 93-103): `pd.read_csv`
wrapped in `try/except`; on failure an error message is shown and the demo
table is used.  Returns the working dataframe together with whether the
upload loaded. -/
def dashboard_load_data (rng : NumpyRNG) (parse : String → Except String DataFrame)
    (upload : Option String) : DataFrame × Bool :=
  match upload with
  | none => (default_df rng, false)
  | some s =>
      match parse s with
      | Except.ok t => (t, true)
      | Except.error _ => (default_df rng, false)

/-- The scenario-modeling section of `src/app.py` (lines 78-87): given the
three slider values, if a table was uploaded the script plots the fixed line
`x=[0,1,2], y=[100,110,105]` titled "Projected Revenue"; otherwise it shows
an info message (`none`).  No slider value reaches the chart. -/
def scenario_chart (df : Option DataFrame) (ad_spend price_change churn_change : ℤ) :
    Option (List ℚ × List ℚ) :=
  match df with
  | some _ => some ([0, 1, 2], [100, 110, 105])
  | none => none

/-- The benchmarking section of `src/app.py` (lines 69-75): with data
present, two hard-coded text lines; otherwise an info message (`[]`). -/
def app_benchmark_lines (df : Option DataFrame) : List String :=
  match df with
  | some _ =>
      ["- Revenue: 15% below industry average",
       "- Orders: 3% above industry average"]
  | none => []

/-- Session-scoped state: the dashboard's `st.session_state['help_shown']`
flag (the only key either script writes). -/
structure SessionState where
  help_shown : Bool
deriving DecidableEq

/-- Anything durable across sessions (files, databases, remote stores).
Neither script performs any such write; the store is threaded through both
render passes to state that. -/
structure PersistentStore where
  entries : List (String × String)
deriving DecidableEq

/-- One full render pass of `src/app.py`: load (errors uncaught), render the
sections, and — when `Save Note` is clicked (lines 109-111) — show
"Note saved (not persistent)." without writing anywhere.  Returns the
untouched persistent store with the pass's outcome: the fresh table and the
optional save message. -/
def app_script (parse : String → Except String DataFrame) (upload : Option String)
    (note : String) (save_clicked : Bool) (p : PersistentStore) :
    PersistentStore × Except String (Option DataFrame × Option String) :=
  (p, (app_load_data parse upload).map
        (fun df => (df, if save_clicked then some "Note saved (not persistent)." else none)))

/-- One full render pass of `src/dashboard.py`: the sidebar help block
(lines 80-84) sets `help_shown` in session state; the working table is
rebuilt from the upload or the seeded generator; nothing touches the
persistent store. -/
def dashboard_script (rng : NumpyRNG) (parse : String → Except String DataFrame)
    (upload : Option String) (help_clicked : Bool) (s : SessionState)
    (p : PersistentStore) : PersistentStore × SessionState × DataFrame :=
  let s1 := if help_clicked || !s.help_shown then { s with help_shown := true } else s
  (p, s1, (dashboard_load_data rng parse upload).1)

/-! Concrete tables and instances used to settle claims on explicit inputs. -/

/-- A one-row table whose only column is a non-zero revenue column. -/
def dfRevenueOnly : DataFrame := ⟨[("Your Revenue", [100])]⟩

/-- A table carrying the exact column names `dynamic_ai_insights` tests. -/
def dfExactNames : DataFrame :=
  ⟨[("Your Revenue", [100, 100]), ("Industry Revenue", [90, 90])]⟩

/-- The same data as `dfExactNames` under lower-cased column names. -/
def dfLowerNames : DataFrame :=
  ⟨[("your revenue", [100, 100]), ("industry revenue", [90, 90])]⟩

/-- A table with revenue data but no `Customers` column. -/
def dfNoCustomers : DataFrame :=
  ⟨[("Your Revenue", [100]), ("Industry Revenue", [90])]⟩

/-- The table `dfNoCustomers` with an explicit all-zero `Customers` column —
what the spec's "missing columns fall back to zero" would make of it. -/
def dfZeroCustomers : DataFrame :=
  ⟨[("Your Revenue", [100]), ("Industry Revenue", [90]), ("Customers", [0])]⟩

/-- A table with an 80% expense ratio. -/
def dfExpenses : DataFrame := ⟨[("Your Revenue", [100]), ("Your Expenses", [80])]⟩

/-- The empty table. -/
def dfEmpty : DataFrame := ⟨[]⟩

/-- A concrete instance of the pandas CSV parser on input it cannot parse:
`pd.read_csv` raises `ParserError` (modelled by `Except.error`). -/
def failing_parse : String → Except String DataFrame :=
  fun _ => Except.error "ParserError: bad CSV"

/-- A concrete deterministic generator instance, for evaluating the demo-data
construction at an explicit input. -/
def zero_rng : NumpyRNG where
  seed := fun n => n
  fromEntropy := fun n => n
  randint := fun _ _ n s => (List.replicate n 0, s)
  uniform := fun _ _ n s => (List.replicate n 0, s)

/-- C1 counterexample: with a non-zero one-row baseline uploaded, the
price-change slider at 10 and at 20 produces the identical projected-revenue
chart, contradicting "two different price-change slider values yield
different projected revenue for a non-zero baseline". -/
theorem scenario_chart_price_counterexample :
    scenario_chart (some dfRevenueOnly) 0 10 0 = scenario_chart (some dfRevenueOnly) 0 20 0 ∧
    qsum (dfRevenueOnly.col "Your Revenue") ≠ 0 := by
  with_unfolding_all decide

/-- C1 (amended): the projected-revenue chart of `src/app.py` is the constant
series `y = [100, 110, 105]` for every uploaded table and every setting of the
ad-spend, price and churn sliders; no slider value reaches the chart, so the
displayed projection is not the baseline aggregate scaled by
`(1 + pct/100)`. -/
theorem scenario_chart_ignores_sliders :
    ∀ (df : DataFrame) (ad_spend price_change churn_change : ℤ),
      scenario_chart (some df) ad_spend price_change churn_change =
        some ([0, 1, 2], [100, 110, 105]) :=
  fun _ _ _ _ => rfl

/-- C2 counterexample: two tables holding the same numbers, one under the
exact column names `Your Revenue`/`Industry Revenue` and one under their
lower-cased variants, produce different insights — the lower-cased table gets
only the generic fallback.  Under the claimed lower-casing/substring
auto-mapping both tables would map to the same canonical fields and behave
identically. -/
theorem column_matching_not_lowercased :
    dynamic_ai_insights dfExactNames = [Insight.revOutperform] ∧
    dynamic_ai_insights dfLowerNames = [Insight.fallback] := by
  with_unfolding_all decide

/-- C2 (amended): the code that consumes columns tests exact, case-sensitive
column names: `hasCol` is literal string equality against the column list,
and each insight branch of `dynamic_ai_insights` is gated on the exact names
`Your Revenue`, `Industry Revenue`, `Your Expenses`, `Customers` — a field
with no exactly-matching column contributes no insights at all. -/
theorem insights_test_exact_column_names :
    ∀ df : DataFrame,
      (∀ name, df.hasCol name = true ↔ ∃ p ∈ df.cols, p.1 = name) ∧
      (df.hasCol "Your Revenue" = false ∨ df.hasCol "Industry Revenue" = false →
        revenueInsights df = []) ∧
      (df.hasCol "Your Expenses" = false ∨ df.hasCol "Your Revenue" = false →
        expensesInsights df = []) ∧
      (df.hasCol "Customers" = false → customersInsights df = []) := by
  intro df
  refine ⟨fun name => ?_, fun h => ?_, fun h => ?_, fun h => ?_⟩
  · simp [DataFrame.hasCol, List.any_eq_true, beq_iff_eq]
  · unfold revenueInsights
    rcases h with h | h <;> simp [h]
  · unfold expensesInsights
    rcases h with h | h <;> simp [h]
  · unfold customersInsights
    simp [h]

/-- Witness for `insights_test_exact_column_names` at the concrete
lower-cased table. -/
theorem insights_test_exact_column_names_witness :
    dfLowerNames.hasCol "Your Revenue" = false ∧ revenueInsights dfLowerNames = [] :=
  ⟨by decide, (insights_test_exact_column_names dfLowerNames).2.1 (Or.inl (by decide))⟩

/-- C3 counterexample: `src/app.py` calls `pd.read_csv` with no surrounding
handler, so on an unparsable upload the parser's exception propagates out of
the script (modelled by the `Except.error` escaping `app_load_data`) — a
fatal, uncaught parse error, contradicting "no parse error is fatal … for
every script, including app.py". -/
theorem app_read_csv_unhandled_counterexample :
    app_load_data failing_parse (some "not,a,csv") = Except.error "ParserError: bad CSV" :=
  rfl

/-- C3 (amended): `src/dashboard.py` wraps `pd.read_csv` in `try/except` and
degrades to the demo table on any parse error, and uses a successful parse
as-is; `src/app.py` does not — its unwrapped `pd.read_csv` propagates the
parse error uncaught. -/
theorem csv_parse_error_handling :
    ∀ (parse : String → Except String DataFrame) (s e : String) (rng : NumpyRNG),
      (parse s = Except.error e → app_load_data parse (some s) = Except.error e) ∧
      (parse s = Except.error e →
        dashboard_load_data rng parse (some s) = (default_df rng, false)) ∧
      (∀ t, parse s = Except.ok t → dashboard_load_data rng parse (some s) = (t, true)) := by
  intro parse s e rng
  refine ⟨fun h => ?_, fun h => ?_, fun t h => ?_⟩ <;>
    simp [app_load_data, dashboard_load_data, h, Except.map]

/-- Witness for `csv_parse_error_handling` at a concrete failing parse. -/
theorem csv_parse_error_handling_witness :
    app_load_data failing_parse (some "x") = Except.error "ParserError: bad CSV" ∧
    dashboard_load_data zero_rng failing_parse (some "x") = (default_df zero_rng, false) :=
  ⟨(csv_parse_error_handling failing_parse "x" "ParserError: bad CSV" zero_rng).1 rfl,
   (csv_parse_error_handling failing_parse "x" "ParserError: bad CSV" zero_rng).2.1 rfl⟩

/-- C4 counterexample: the `Industry Revenue` reference is not a static
per-metric lookup value — with the same random factor, two different user
revenues give two different reference values; and the app.py benchmark lines
are hard-coded text rather than any computed comparison. -/
theorem benchmark_not_static_counterexample :
    industry_reference [(100000 : ℚ)] [9 / 10] ≠ industry_reference [(120000 : ℚ)] [9 / 10] ∧
    app_benchmark_lines (some dfExactNames) =
      ["- Revenue: 15% below industry average",
       "- Orders: 3% above industry average"] := by
  with_unfolding_all decide

/-- C4 (amended): in `src/dashboard.py` the industry reference values are the
user's own values multiplied by random factors — so for a non-zero factor the
reference varies with the user value and is not static — and the `% Diff`
fields are relative differences `((user − industry)/industry)·100` rounded to
one decimal; in `src/app.py` the benchmark lines are hard-coded constant text
independent of the data. -/
theorem benchmark_reference_tracks_user_values :
    ∀ (u v f i : ℚ) (d₁ d₂ : DataFrame),
      (f ≠ 0 → u ≠ v → industry_reference [u] [f] ≠ industry_reference [v] [f]) ∧
      (i ≠ 0 → pct_diff u i = round1 ((u / i - 1) * 100)) ∧
      app_benchmark_lines (some d₁) = app_benchmark_lines (some d₂) := by
  intro u v f i d₁ d₂
  refine ⟨fun hf huv hcontra => ?_, fun hi => ?_, rfl⟩
  · apply huv
    have h : u * f = v * f := by simpa [industry_reference] using hcontra
    exact mul_right_cancel₀ hf h
  · have hrw : (u - i) / i = u / i - 1 := by field_simp
    unfold pct_diff
    rw [hrw]

/-- Witness for `benchmark_reference_tracks_user_values` at concrete values. -/
theorem benchmark_reference_tracks_user_values_witness :
    ((9 : ℚ) / 10 ≠ 0 ∧ (100000 : ℚ) ≠ 120000 ∧
      industry_reference [(100000 : ℚ)] [9 / 10] ≠ industry_reference [(120000 : ℚ)] [9 / 10]) ∧
    ((90 : ℚ) ≠ 0 ∧ pct_diff 100000 90 = round1 ((100000 / 90 - 1) * 100)) :=
  ⟨⟨by norm_num, by norm_num,
    (benchmark_reference_tracks_user_values 100000 120000 (9 / 10) 90 dfEmpty dfEmpty).1
      (by norm_num) (by norm_num)⟩,
   ⟨by norm_num,
    (benchmark_reference_tracks_user_values 100000 120000 (9 / 10) 90 dfEmpty dfEmpty).2.1
      (by norm_num)⟩⟩

/-- C5: the demo-data generator is seeded with the constant `9` before any
draw, so the generator state — and with it every column of the demo table,
dates, revenues, expenses, customers, percentage differences and the ranks —
is independent of the ambient entropy that distinguishes one execution from
another: any two executions produce the identical table. -/
theorem demo_data_deterministic :
    ∀ (rng : NumpyRNG) (entropy₁ entropy₂ : ℕ),
      run_demo rng entropy₁ = run_demo rng entropy₂ ∧
      (run_demo rng entropy₁).col "Revenue Rank" = [2, 2, 1, 2, 1, 1, 2] :=
  fun _ _ _ => ⟨rfl, rfl⟩

/-- Is the insight the generic fallback message? -/
def Insight.isGenericFallback : Insight → Bool
  | .fallback => true
  | _ => false

/-- Every insight of the revenue branch is a revenue insight, in particular
neither a customer insight nor the generic fallback. -/
theorem revenueInsights_branch_shape (df : DataFrame) :
    (revenueInsights df).all
      (fun i => i.isRevenue && !i.isCustomer && !i.isGenericFallback) = true := by
  simp only [revenueInsights]
  split
  · simp only [List.all_append, Bool.and_eq_true]
    refine ⟨⟨?_, ?_⟩, ?_⟩ <;> (repeat' split) <;> rfl
  · rfl

/-- Every insight of the expenses branch is neither a customer insight nor
the generic fallback. -/
theorem expensesInsights_branch_shape (df : DataFrame) :
    (expensesInsights df).all (fun i => !i.isCustomer && !i.isGenericFallback) = true := by
  simp only [expensesInsights]
  split
  · simp only [List.all_append, Bool.and_eq_true]
    refine ⟨?_, ?_⟩ <;> (repeat' split) <;> rfl
  · rfl

/-- Every insight of the customers branch is a customer insight and not the
generic fallback. -/
theorem customersInsights_branch_shape (df : DataFrame) :
    (customersInsights df).all (fun i => i.isCustomer && !i.isGenericFallback) = true := by
  simp only [customersInsights]
  split
  · simp only [List.all_append, Bool.and_eq_true]
    refine ⟨?_, ?_⟩ <;> (repeat' split) <;> rfl
  · rfl

/-- No branch ever appends the generic fallback. -/
theorem insightsCore_no_fallback (df : DataFrame) :
    (insightsCore df).all (fun i => !i.isGenericFallback) = true := by
  have h1 := revenueInsights_branch_shape df
  have h2 := expensesInsights_branch_shape df
  have h3 := customersInsights_branch_shape df
  simp only [List.all_eq_true, Bool.and_eq_true] at h1 h2 h3
  simp only [insightsCore, List.all_eq_true]
  intro i hi
  rcases List.mem_append.1 hi with hi' | hi'
  · rcases List.mem_append.1 hi' with hi'' | hi''
    · exact (h1 i hi'').2
    · exact (h2 i hi'').2
  · exact (h3 i hi').2

/-- C6 counterexample: on a concrete table with no `Customers` column the
customers branch contributes nothing, while the same table extended with an
explicit all-zero `Customers` column gains a customer insight.  A missing
column therefore does not "fall back to zero … in the computed outputs" — the
two tables would otherwise produce identical insights. -/
theorem missing_column_no_zero_fallback_counterexample :
    dynamic_ai_insights dfNoCustomers = [Insight.revOutperform] ∧
    dynamic_ai_insights dfZeroCustomers = [Insight.revOutperform, Insight.custLow] ∧
    dynamic_ai_insights dfNoCustomers ≠ dynamic_ai_insights dfZeroCustomers := by
  with_unfolding_all decide

/-- C6 (amended): `dynamic_ai_insights` skips the corresponding insight
branch entirely when a column is missing — a table without a `Customers`
column yields no customer insight at all, no zero value is substituted — and
the single generic fallback message appears exactly when no branch fired. -/
theorem missing_customers_column_skips_branch :
    ∀ df : DataFrame,
      (df.hasCol "Customers" = false →
        (dynamic_ai_insights df).all (fun i => !i.isCustomer) = true) ∧
      (insightsCore df = [] ↔ dynamic_ai_insights df = [Insight.fallback]) := by
  intro df
  constructor
  · intro h
    simp only [dynamic_ai_insights]
    split
    · rfl
    · simp only [insightsCore, List.all_append, Bool.and_eq_true]
      refine ⟨⟨?_, ?_⟩, ?_⟩
      · have h1 := revenueInsights_branch_shape df
        simp only [List.all_eq_true, Bool.and_eq_true] at h1 ⊢
        exact fun i hi => ((h1 i hi).1).2
      · have h2 := expensesInsights_branch_shape df
        simp only [List.all_eq_true, Bool.and_eq_true] at h2 ⊢
        exact fun i hi => (h2 i hi).1
      · simp [customersInsights, h]
  · constructor
    · intro h
      simp only [dynamic_ai_insights]
      simp [h]
    · intro h
      by_contra hne
      have hcond : ¬ (insightsCore df).isEmpty = true := by
        simp [List.isEmpty_iff, hne]
      have hcore : dynamic_ai_insights df = insightsCore df := by
        simp only [dynamic_ai_insights]
        rw [if_neg hcond]
      rw [hcore] at h
      have hnf := insightsCore_no_fallback df
      rw [h] at hnf
      simp [Insight.isGenericFallback] at hnf

/-- Witness for `missing_customers_column_skips_branch` at the concrete
table without a `Customers` column. -/
theorem missing_customers_column_skips_branch_witness :
    dfNoCustomers.hasCol "Customers" = false ∧
    (dynamic_ai_insights dfNoCustomers).all (fun i => !i.isCustomer) = true :=
  ⟨by decide, (missing_customers_column_skips_branch dfNoCustomers).1 (by decide)⟩

/-- C7: neither render pass writes anything that persists across sessions:
the persistent store threaded through a full execution of either script is
returned unchanged — in particular clicking `Save Note` only shows
"Note saved (not persistent)." — and the working table of a pass is rebuilt
from the upload/generator alone, independent of session state and of the
persistent store, hence created fresh on every execution. -/
theorem render_passes_write_nothing_persistent :
    ∀ (parse : String → Except String DataFrame) (upload : Option String)
      (note : String) (save_clicked : Bool) (p : PersistentStore)
      (rng : NumpyRNG) (upload₂ : Option String) (help_clicked : Bool)
      (s s' : SessionState) (p₁ p₂ : PersistentStore),
      (app_script parse upload note save_clicked p).1 = p ∧
      (dashboard_script rng parse upload₂ help_clicked s p₁).1 = p₁ ∧
      (dashboard_script rng parse upload₂ help_clicked s p₁).2.2 =
        (dashboard_script rng parse upload₂ help_clicked s' p₂).2.2 :=
  fun _ _ _ _ _ _ _ _ _ _ _ _ => ⟨rfl, rfl, rfl⟩

/-- C8: `dynamic_ai_insights` never returns an empty list, and when no
recognized column yields an insight the result is exactly the single
fallback message "Upload more data for actionable, dynamic insights.". -/
theorem dynamic_ai_insights_nonempty :
    ∀ df : DataFrame,
      dynamic_ai_insights df ≠ [] ∧
      (insightsCore df = [] →
        (dynamic_ai_insights df).map Insight.message =
          ["Upload more data for actionable, dynamic insights."]) := by
  intro df
  constructor
  · simp only [dynamic_ai_insights]
    split
    · simp
    · rename_i h
      simpa [List.isEmpty_iff] using h
  · intro h
    simp only [dynamic_ai_insights]
    simp [h, Insight.message]

/-- Witness for `dynamic_ai_insights_nonempty` at the empty table, where no
branch fires. -/
theorem dynamic_ai_insights_nonempty_witness :
    insightsCore dfEmpty = [] ∧
    (dynamic_ai_insights dfEmpty).map Insight.message =
      ["Upload more data for actionable, dynamic insights."] :=
  ⟨rfl, (dynamic_ai_insights_nonempty dfEmpty).2 rfl⟩

/-- C9: the expense ratio is divided out only under the guard that the
revenue sum is strictly positive — whenever the insights path produces a
ratio the divisor is positive, so the division-by-zero branch is
unreachable — and when the guard fails the insights path yields `None` while
the achievements path yields the sentinel `2`. -/
theorem expense_ratio_guarded :
    ∀ df : DataFrame,
      (∀ q, insights_expense_ratio df = some q →
        qsum (df.col "Your Revenue") > 0 ∧
        q = qsum (df.col "Your Expenses") / qsum (df.col "Your Revenue")) ∧
      (qsum (df.col "Your Revenue") > 0 →
        achievements_expense_ratio df =
          qsum (df.col "Your Expenses") / qsum (df.col "Your Revenue")) ∧
      (¬ qsum (df.col "Your Revenue") > 0 →
        insights_expense_ratio df = none ∧ achievements_expense_ratio df = 2) := by
  intro df
  refine ⟨fun q hq => ?_, fun h => ?_, fun h => ?_⟩
  · unfold insights_expense_ratio at hq
    split at hq
    · rename_i hpos
      exact ⟨hpos, (Option.some.inj hq).symm⟩
    · exact absurd hq (by simp)
  · unfold achievements_expense_ratio
    rw [if_pos h]
  · unfold insights_expense_ratio achievements_expense_ratio
    rw [if_neg h, if_neg h]
    exact ⟨rfl, rfl⟩

/-- Witness for `expense_ratio_guarded`: the guard holds on the concrete
80%-ratio table, and fails on the empty table where the sentinel values
appear. -/
theorem expense_ratio_guarded_witness :
    (qsum (dfExpenses.col "Your Revenue") > 0 ∧
      (4 : ℚ) / 5 = qsum (dfExpenses.col "Your Expenses") / qsum (dfExpenses.col "Your Revenue")) ∧
    (insights_expense_ratio dfEmpty = none ∧ achievements_expense_ratio dfEmpty = 2) :=
  ⟨(expense_ratio_guarded dfExpenses).1 (4 / 5) (by with_unfolding_all decide),
   (expense_ratio_guarded dfEmpty).2.2 (by with_unfolding_all decide)⟩

/-- C10: the gamified completion ratio `min(100, int(len(df)/10*100))` always
lies in `[0, 100]` (it is a `ℕ`, hence non-negative, and capped by the
`min`), and equals `100` for every table of at least 10 rows, so the
progress widget always receives a valid integer percentage. -/
theorem completion_ratio_bounds :
    ∀ n : ℕ, completion_ratio n ≤ 100 ∧ (10 ≤ n → completion_ratio n = 100) := by
  intro n
  have h : completion_ratio n = min 100 (10 * n) := by
    unfold completion_ratio
    have hcast : (n : ℚ) / 10 * 100 = ((10 * n : ℕ) : ℚ) := by push_cast; ring
    rw [hcast, Rat.floor_def', Rat.num_natCast, Rat.den_natCast]
    simp
    omega
  rw [h]
  omega

/-- Witness for `completion_ratio_bounds` at a 12-row table. -/
theorem completion_ratio_bounds_witness :
    (10 : ℕ) ≤ 12 ∧ completion_ratio 12 = 100 :=
  ⟨by decide, (completion_ratio_bounds 12).2 (by decide)⟩

end Echolon
